import Mathlib

/-!
Shallow embedding of the request-batching inference scheduler of
`inference_instruction.py` and `inference_chat.py`.

The two variants share a data model: each HTTP request creates a per-request
event object (`InferenceEvent` in the instruction variant; a bare
`threading.Event` with dynamically attached attributes in the chat variant)
that is enqueued together with the raw input text; a single daemon thread
(`batch_inference`) collects a time-bounded batch from the queue, runs the
model, and writes per-member results back onto the events before signaling
them.

The model/tokenizer pair is opaque: we model the tokenizer's
`len(tokenizer(s).input_ids[0])` as an arbitrary token-length function
`tok : String → Nat`, and the decoded outputs of `model.generate` as a list
of strings supplied by the environment (`GenResult.ok outputs`), with
`GenResult.err` standing for an exception or hard timeout raised out of the
`generate` call.
-/

namespace HyperAGI

/-- The per-request event object of `inference_instruction.py`
(`class InferenceEvent`): a threading.Event plus the request payload and the
result fields. `signalCount` counts calls of `event.set()` so that
"signaled exactly once" is expressible; the Python object starts unsignaled
with `response = None` and both token counts `0`. The chat variant attaches
the same `response` / `num_input_tokens` / `num_output_tokens` attributes to
a bare `threading.Event`, so the same structure serves both variants (the
chat variant never reads `data` from the event). -/
structure InferenceEvent where
  data : String
  signalCount : Nat
  response : Option String
  num_input_tokens : Nat
  num_output_tokens : Nat
deriving DecidableEq

/-- `InferenceEvent.__init__`: unsignaled, no response, zero token counts. -/
def initEvent (d : String) : InferenceEvent :=
  ⟨d, 0, none, 0, 0⟩

/-- Default event used with `List.getD` (never reached in the theorems,
which index within bounds). -/
def defaultEvent : InferenceEvent := initEvent ""

/-- `event.set()`. -/
def setEvent (e : InferenceEvent) : InferenceEvent :=
  { e with signalCount := e.signalCount + 1 }

/-- Result of one `model.generate` call on a batch: `ok outputs` is the list
of decoded output strings (one per batch member, already passed through
`tokenizer.decode`); `err` is an exception or hard-timeout raised out of the
call. -/
inductive GenResult where
  | ok (outputs : List String)
  | err
deriving DecidableEq

/-- Success-path update of one member in `inference_instruction.py`
(lines 132-136): store the decoded response, recompute the token counts from
the member's own stored input (`inference_event.data`) and its own decoded
response, then `event.set()`. -/
def updSuccessInstr (tok : String → Nat) (resp : String) (e : InferenceEvent) :
    InferenceEvent :=
  setEvent { e with
    response := some resp
    num_input_tokens := tok e.data
    num_output_tokens := tok resp }

/-- Failure-path update of one member in `inference_instruction.py`
(lines 139-141): write the fixed error string as the response and
`event.set()`; the token counts are left at their current values. -/
def updErrorInstr (e : InferenceEvent) : InferenceEvent :=
  setEvent { e with response := some "Error occurred during processing" }

/-- The `for response, inference_event in zip(responses, events)` loop of
`inference_instruction.py`: updates the prefix of events matched by `zip`
(Python's `zip` truncates to the shorter list) and leaves any remaining
events untouched. -/
def zipUpd (tok : String → Nat) : List String → List InferenceEvent → List InferenceEvent
  | r :: rs, e :: es => updSuccessInstr tok r e :: zipUpd tok rs es
  | _, es => es

/-- One processing phase of the `batch_inference` loop of
`inference_instruction.py` on a non-empty batch whose members are `events`
(in collection order): on success each zipped member is updated and
signaled; on an exception (including the re-raised 30-second
`TimeoutError`), the `except` block writes the error response to every
member and signals it. -/
def runCycleInstr (tok : String → Nat) (events : List InferenceEvent)
    (res : GenResult) : List InferenceEvent :=
  match res with
  | .ok outputs => zipUpd tok outputs events
  | .err => events.map updErrorInstr

/-- Success-path update of one member in `inference_chat.py`
(lines 154-158): the loop `for response, event, input_text in
zip(responses, events, batch)` takes the member's input text from the
parallel `batch` list rather than from the event. -/
def updSuccessChat (tok : String → Nat) (resp input_text : String)
    (e : InferenceEvent) : InferenceEvent :=
  setEvent { e with
    response := some resp
    num_input_tokens := tok input_text
    num_output_tokens := tok resp }

/-- The three-way `zip(responses, events, batch)` loop of
`inference_chat.py`: updates the common prefix, leaves remaining events
untouched. -/
def zipUpdChat (tok : String → Nat) :
    List String → List InferenceEvent → List String → List InferenceEvent
  | r :: rs, e :: es, b :: bs => updSuccessChat tok r b e :: zipUpdChat tok rs es bs
  | _, es, _ => es

/-- One processing phase of the `batch_inference` loop of
`inference_chat.py` on a non-empty batch: on success each zipped member is
updated and signaled; on an exception the `except` block (lines 161-162)
only logs — no event is written or signaled. -/
def runCycleChat (tok : String → Nat) (batch : List String)
    (events : List InferenceEvent) (res : GenResult) : List InferenceEvent :=
  match res with
  | .ok outputs => zipUpdChat tok outputs events batch
  | .err => events

/-! ## HTTP boundary

Both variants expose `POST /inference`. The JSON field lookup
`data.get("input_text")` is modelled as an `Option String` (`none` when the
key is missing); Python's `if not input_text` is true for `None` and for the
empty string. The rendered response is a status code plus one of the two
body shapes the handlers produce. The handler also reports the list of
payloads it `put` on `request_queue`, so that "core never invoked" is
expressible. -/

/-- A rendered HTTP response body: either the success JSON
`{generated_text, num_output_tokens, num_input_tokens}` or an error JSON
`{"error": msg}`. -/
inductive RespBody where
  | result (generated_text : String) (num_output_tokens num_input_tokens : Nat)
  | error (msg : String)
deriving DecidableEq

/-- Status code plus body, as produced by `jsonify(...)` (status 200 when no
explicit code is given) or `jsonify(...), code`. -/
structure HttpResp where
  status : Nat
  body : RespBody
deriving DecidableEq

/-- Python `sep in`-scan helper: the remainder of `s` strictly after the
first occurrence of the separator `sep`, or `none` when `sep` does not occur
in `s`. (Character-list level; `sep` is non-empty at every use site, as in
Python where `split("")` is an error.) -/
def restAfterFirst (sep : List Char) : List Char → Option (List Char)
  | [] => if sep = [] then some [] else none
  | c :: rest =>
    if sep.isPrefixOf (c :: rest) then some ((c :: rest).drop sep.length)
    else restAfterFirst sep rest

/-- Fueled left-to-right scan computing Python's `s.split(sep)[-1]`: the
remainder of the string after the last non-overlapping occurrence of `sep`,
or the whole string when `sep` does not occur. The fuel (the string length
at the top call) dominates the number of occurrences, since each step drops
at least one character of a non-empty separator occurrence. -/
def splitLastAux (sep : List Char) : Nat → List Char → List Char
  | 0, s => s
  | fuel + 1, s =>
    match restAfterFirst sep s with
    | none => s
    | some t => splitLastAux sep fuel t

/-- Python `s.strip()`: drop whitespace from both ends. -/
def stripChars (l : List Char) : List Char :=
  (((l.dropWhile Char.isWhitespace).reverse).dropWhile Char.isWhitespace).reverse

/-- The response marker both handlers split on:
`response_start = "### Response:\n"`. -/
def response_start : String := "### Response:\n"

/-- The extraction both handlers perform on the raw decoded response:
`response.split(response_start)[-1].strip()`. -/
def extractResponse (s : String) : String :=
  ⟨stripChars (splitLastAux response_start.data s.data.length s.data)⟩

/-- The `/inference` handler of `inference_instruction.py` (lines 149-169).
`input_text` is the JSON field (`none` when absent). `wait` abstracts
`inference_event.event.wait(timeout=60)`: `none` means the 60-second wait
timed out before the gate was signaled; `some ev` means the gate was
signaled and `ev` is the event's state at that point. The second component
of the result is the list of payloads enqueued on `request_queue`. -/
def instrInference (input_text : Option String) (wait : Option InferenceEvent) :
    HttpResp × List String :=
  match input_text with
  | none => (⟨400, .error "Please provide input_text"⟩, [])
  | some s =>
    if s = "" then (⟨400, .error "Please provide input_text"⟩, [])
    else
      match wait with
      | none => (⟨408, .error "Inference timeout"⟩, [s])
      | some ev =>
        (⟨200, .result (extractResponse (ev.response.getD ""))
            ev.num_output_tokens ev.num_input_tokens⟩, [s])

/-- The `/inference` handler of `inference_chat.py` (lines 168-186). Its
`event.wait()` has no timeout, so the handler produces a response only if
the gate is eventually signaled: `gate = none` means the gate is never
signaled and the handler blocks forever, rendered as a `none` response. -/
def chatInference (input_text : Option String) (gate : Option InferenceEvent) :
    Option HttpResp × List String :=
  match input_text with
  | none => (some ⟨400, .error "Please provide input_text"⟩, [])
  | some s =>
    if s = "" then (some ⟨400, .error "Please provide input_text"⟩, [])
    else
      match gate with
      | none => (none, [s])
      | some ev =>
        (some ⟨200, .result (extractResponse (ev.response.getD ""))
            ev.num_output_tokens ev.num_input_tokens⟩, [s])

/-! ## Batch collection

Time is modelled in abstract units (`Nat`); `t` is the elapsed time since
`start_time` of the current cycle. The environment supplies the arrival
schedule of the queue. -/

/-- The collection loop of `inference_instruction.py` (lines 106-112):
`while (time.time() - start_time) < INFER_TIMEOUT`, with
`request_queue.get(timeout = INFER_TIMEOUT - elapsed)`; on `queue.Empty`
the loop breaks. The environment is a list of `(delay, payload)` pairs:
the next `get` returns `payload` after `delay` further time units if that
fits in the remaining window, and otherwise raises `queue.Empty` after the
remaining window elapses. An exhausted environment list means no request
ever arrives, so the pending `get` times out. -/
def collectInstr (limit : Nat) : Nat → List (Nat × String) → List String
  | _, [] => []
  | t, (d, x) :: rest =>
    if t < limit then
      if t + d ≤ limit then x :: collectInstr limit (t + d) rest
      else []
    else []

/-- One `request_queue.get(timeout=1)` attempt in the chat variant's
collection loop: either a payload arrives after `delay ≤ 1` time units, or
the pull times out empty after 1 time unit. -/
inductive Pull where
  | item (delay : Nat) (x : String)
  | empty
deriving DecidableEq

/-- The collection loop of `inference_chat.py` (lines 120-126):
`while time.time() - start_time < batch_time_limit`, with
`request_queue.get(timeout=1)`; on `queue.Empty` the loop continues
(another pull attempt) instead of breaking. -/
def collectChat (limit : Nat) : Nat → List Pull → List String
  | _, [] => []
  | t, p :: rest =>
    if t < limit then
      match p with
      | .empty => collectChat limit (t + 1) rest
      | .item d x => x :: collectChat limit (t + d) rest
    else []

/-! ## Per-cycle executor-side effects

For the serialization and resource-release claims we record the observable
executor-side effects of one `batch_inference` cycle: the begin and end of
the (single) `model.generate` invocation and the `torch.cuda.empty_cache()`
release. A cycle that collected an empty batch performs none of them
(`if batch:`). -/

/-- Observable executor-side effect. -/
inductive Effect where
  | genBegin
  | genEnd
  | emptyCache
deriving DecidableEq

/-- Effects of one cycle of `inference_instruction.py` on `batch`: nothing
for an empty batch; otherwise one `generate` invocation (on the timeout
path, `with ThreadPoolExecutor` joins the worker before the `except` block
runs, so the invocation has ended either way) followed by the
`finally: torch.cuda.empty_cache()` — on the success and failure paths
alike, which is why the effect list does not depend on `res`. -/
def cycleEffectsInstr (batch : List String) (res : GenResult) : List Effect :=
  match batch, res with
  | [], _ => []
  | _ :: _, _ => [.genBegin, .genEnd, .emptyCache]

/-- Effects of one cycle of `inference_chat.py` on `batch`: nothing for an
empty batch; otherwise one `generate` invocation. The chat variant has no
`torch.cuda.empty_cache()` call on any path. -/
def cycleEffectsChat (batch : List String) (res : GenResult) : List Effect :=
  match batch, res with
  | [], _ => []
  | _ :: _, _ => [.genBegin, .genEnd]

/-- The effect trace of the single scheduler daemon thread of
`inference_instruction.py` across successive cycles (each cycle is the
collected batch paired with its generate result). -/
def schedTraceInstr (cycles : List (List String × GenResult)) : List Effect :=
  (cycles.map fun c => cycleEffectsInstr c.1 c.2).flatten

/-- The effect trace of the single scheduler daemon thread of
`inference_chat.py` across successive cycles. -/
def schedTraceChat (cycles : List (List String × GenResult)) : List Effect :=
  (cycles.map fun c => cycleEffectsChat c.1 c.2).flatten

/-- Scans an effect trace tracking whether a `generate` invocation is
pending; `true` iff no `generate` begins while a previous invocation is
still pending (and no end appears without a begin). -/
def genSerialized : Bool → List Effect → Bool
  | _, [] => true
  | false, .genBegin :: rest => genSerialized true rest
  | true, .genBegin :: _ => false
  | true, .genEnd :: rest => genSerialized false rest
  | false, .genEnd :: _ => false
  | pending, .emptyCache :: rest => genSerialized pending rest

/-! ## Helper lemmas -/

/-- Members of `zipUpd` over initially-unsignaled events are signaled
exactly once, provided the output list covers the events. -/
theorem zipUpd_signalCount (tok : String → Nat) :
    ∀ (outs : List String) (es : List InferenceEvent), outs.length = es.length →
      (∀ e0 ∈ es, e0.signalCount = 0) →
      ∀ e ∈ zipUpd tok outs es, e.signalCount = 1 := by
  intro outs
  induction outs with
  | nil =>
    intro es hlen h0 e he
    cases es with
    | nil => simp [zipUpd] at he
    | cons b bs => simp at hlen
  | cons r rs ih =>
    intro es hlen h0 e he
    cases es with
    | nil => simp at hlen
    | cons b bs =>
      simp only [zipUpd, List.mem_cons] at he
      rcases he with rfl | he
      · have hb : b.signalCount = 0 := h0 b (by simp)
        simp [updSuccessInstr, setEvent, hb]
      · exact ih bs (by simpa using hlen) (fun e0 h => h0 e0 (by simp [h])) e he

/-- Indexing the instruction success loop: the `i`-th updated event is the
`i`-th event updated with the `i`-th decoded output. -/
theorem zipUpd_getD (tok : String → Nat) :
    ∀ (outs : List String) (es : List InferenceEvent) (i : Nat),
      i < outs.length → i < es.length →
      (zipUpd tok outs es).getD i defaultEvent
        = updSuccessInstr tok (outs.getD i "") (es.getD i defaultEvent) := by
  intro outs
  induction outs with
  | nil => intro es i h1 h2; simp at h1
  | cons r rs ih =>
    intro es i h1 h2
    cases es with
    | nil => simp at h2
    | cons b bs =>
      cases i with
      | zero => rfl
      | succ j =>
        simp only [zipUpd, List.getD_cons_succ]
        exact ih bs j (by simpa using h1) (by simpa using h2)

/-- Indexing the chat success loop. -/
theorem zipUpdChat_getD (tok : String → Nat) :
    ∀ (outs : List String) (es : List InferenceEvent) (bs : List String) (i : Nat),
      i < outs.length → i < es.length → i < bs.length →
      (zipUpdChat tok outs es bs).getD i defaultEvent
        = updSuccessChat tok (outs.getD i "") (bs.getD i "") (es.getD i defaultEvent) := by
  intro outs
  induction outs with
  | nil => intro es bs i h1 h2 h3; simp at h1
  | cons r rs ih =>
    intro es bs i h1 h2 h3
    cases es with
    | nil => simp at h2
    | cons e es2 =>
      cases bs with
      | nil => simp at h3
      | cons b bs2 =>
        cases i with
        | zero => rfl
        | succ j =>
          simp only [zipUpdChat, List.getD_cons_succ]
          exact ih es2 bs2 j (by simpa using h1) (by simpa using h2) (by simpa using h3)

/-- In-bounds indexing of the freshly created events. -/
theorem map_initEvent_getD :
    ∀ (batch : List String) (i : Nat), i < batch.length →
      (batch.map initEvent).getD i defaultEvent = initEvent (batch.getD i "") := by
  intro batch
  induction batch with
  | nil => intro i h; simp at h
  | cons b bs ih =>
    intro i h
    cases i with
    | zero => rfl
    | succ j => exact ih j (by simpa using h)

/-- In-bounds indexing of the instruction failure path. -/
theorem runCycleInstr_err_getD (tok : String → Nat) :
    ∀ (batch : List String) (i : Nat), i < batch.length →
      (runCycleInstr tok (batch.map initEvent) GenResult.err).getD i defaultEvent
        = updErrorInstr (initEvent (batch.getD i "")) := by
  intro batch
  induction batch with
  | nil => intro i h; simp at h
  | cons b bs ih =>
    intro i h
    cases i with
    | zero => rfl
    | succ j => exact ih j (by simpa using h)

/-- A trace of `n` requests all arriving instantly is collected whole by the
instruction variant: the loop has no member-count bound. -/
theorem collectInstr_instant (limit : Nat) (hlim : 0 < limit) :
    ∀ n : Nat, collectInstr limit 0 (List.replicate n (0, "x")) = List.replicate n "x" := by
  intro n
  induction n with
  | zero => rfl
  | succ k ih =>
    simp only [List.replicate_succ, collectInstr, Nat.add_zero, hlim, if_true]
    simp [Nat.le_of_lt hlim, ih]

/-- A trace of `n` requests all arriving instantly is collected whole by the
chat variant: that loop has no member-count bound either. -/
theorem collectChat_instant (limit : Nat) (hlim : 0 < limit) :
    ∀ n : Nat, collectChat limit 0 (List.replicate n (Pull.item 0 "x")) = List.replicate n "x" := by
  intro n
  induction n with
  | zero => rfl
  | succ k ih =>
    simp only [List.replicate_succ, collectChat, hlim, if_true]
    simp [ih]

/-! ## Claims -/

/-- C1 (amended): in the instruction variant, every Pending Request consumed
by a batch cycle is signaled exactly once — on the success path (when the
executor returns one output per member, as `model.generate` does) and on the
exception path alike. The original claim also asserted this for the chat
variant, where it fails: see the counterexample. -/
theorem c1_instr_exactly_one_signal (tok : String → Nat) (batch : List String)
    (res : GenResult) (hlen : ∀ outs, res = GenResult.ok outs → outs.length = batch.length) :
    ∀ e ∈ runCycleInstr tok (batch.map initEvent) res, e.signalCount = 1 := by
  intro e he
  cases res with
  | ok outs =>
    refine zipUpd_signalCount tok outs (batch.map initEvent) ?_ ?_ e he
    · simpa using hlen outs rfl
    · intro e0 h0
      rcases List.mem_map.mp h0 with ⟨d, _, rfl⟩
      rfl
  | err =>
    rcases List.mem_map.mp he with ⟨e0, he0, rfl⟩
    rcases List.mem_map.mp he0 with ⟨d, _, rfl⟩
    rfl

/-- C1 witness: a concrete one-member batch on the success path, signaled
exactly once. -/
theorem c1_witness :
    ((runCycleInstr String.length (["hi"].map initEvent)
        (GenResult.ok ["yo"])).getD 0 defaultEvent).signalCount = 1 :=
  c1_instr_exactly_one_signal String.length ["hi"] (GenResult.ok ["yo"])
    (fun outs h => by cases h; rfl) _ (by decide)

/-- C1 counterexample: in the chat variant, the batch cycle that consumes the
single enqueued request and hits an executor exception leaves that request's
gate unsignaled (`signalCount = 0`, not `1`), contradicting "no request is
left with its gate unsignaled". -/
theorem c1_chat_counterexample :
    (runCycleChat String.length ["a"] (["a"].map initEvent) GenResult.err).map
      (fun e => e.signalCount) = [0] := by decide

/-- C2 (amended): in the instruction variant, when the executor raises or
times out for a batch of K members, all K members receive the failure
response and are signaled. The original claim also asserted this for the
chat variant, where the `except` block only logs: see the counterexample. -/
theorem c2_instr_failure_fanout (tok : String → Nat) (batch : List String) :
    (runCycleInstr tok (batch.map initEvent) GenResult.err).length = batch.length ∧
    ∀ e ∈ runCycleInstr tok (batch.map initEvent) GenResult.err,
      e.response = some "Error occurred during processing" ∧ e.signalCount = 1 := by
  constructor
  · simp [runCycleInstr]
  · intro e he
    rcases List.mem_map.mp he with ⟨e0, he0, rfl⟩
    rcases List.mem_map.mp he0 with ⟨d, _, rfl⟩
    exact ⟨rfl, rfl⟩

/-- C2 witness: a concrete failing batch of K = 2 members, both of which
carry the failure response and are signaled. -/
theorem c2_witness :
    (runCycleInstr String.length (["a", "bb"].map initEvent) GenResult.err).length = 2 ∧
    ((runCycleInstr String.length (["a", "bb"].map initEvent) GenResult.err).getD 1
        defaultEvent).response = some "Error occurred during processing" ∧
    ((runCycleInstr String.length (["a", "bb"].map initEvent) GenResult.err).getD 1
        defaultEvent).signalCount = 1 :=
  ⟨(c2_instr_failure_fanout String.length ["a", "bb"]).1,
   ((c2_instr_failure_fanout String.length ["a", "bb"]).2 _ (by decide)).1,
   ((c2_instr_failure_fanout String.length ["a", "bb"]).2 _ (by decide)).2⟩

/-- C2 counterexample: in the chat variant, an executor exception on a batch
of K = 2 leaves every member without a Failure outcome and with its gate
unsignaled — the fan-out the claim requires does not happen. -/
theorem c2_chat_counterexample :
    (runCycleChat String.length ["a", "bb"] (["a", "bb"].map initEvent) GenResult.err).map
      (fun e => (e.response, e.signalCount)) = [(none, 0), (none, 0)] := by decide

/-- C3 counterexample: there is no bound at all on the number of members of
a dispatched batch — for every candidate maximum `m` there is an arrival
pattern (here `m + 1` requests arriving instantly, with `INFER_TIMEOUT = 5`)
whose batch exceeds it. The code has no configured maximum member count and
never stops collecting by count. -/
theorem c3_no_size_bound :
    ¬ ∃ m : Nat, ∀ tr : List (Nat × String), (collectInstr 5 0 tr).length ≤ m := by
  rintro ⟨m, h⟩
  have h2 := h (List.replicate (m + 1) (0, "x"))
  rw [collectInstr_instant 5 (by omega)] at h2
  simp at h2

/-- C3 (amended): batch size is bounded only by arrivals within the
collection time window — both collectors stop pulling once the window has
elapsed, but accept any number of members that arrive while window time
remains (no maximum member count exists in either variant). -/
theorem c3_time_window_only :
    (∀ (limit t : Nat) (tr : List (Nat × String)), limit ≤ t →
        collectInstr limit t tr = []) ∧
    (∀ (limit t : Nat) (tr : List Pull), limit ≤ t → collectChat limit t tr = []) ∧
    (∀ n : Nat, collectInstr 5 0 (List.replicate n (0, "x")) = List.replicate n "x") ∧
    (∀ n : Nat, collectChat 2 0 (List.replicate n (Pull.item 0 "x")) = List.replicate n "x") := by
  refine ⟨?_, ?_, collectInstr_instant 5 (by omega), collectChat_instant 2 (by omega)⟩
  · intro limit t tr h
    cases tr with
    | nil => rfl
    | cons p rest =>
      obtain ⟨d, x⟩ := p
      simp [collectInstr, Nat.not_lt.mpr h]
  · intro limit t tr h
    cases tr with
    | nil => rfl
    | cons p rest => simp [collectChat, Nat.not_lt.mpr h]

/-- C3 witness: concrete instances — an elapsed window collects nothing, and
two instant arrivals are both collected. -/
theorem c3_witness :
    collectInstr 3 5 [(0, "a")] = [] ∧
    collectChat 2 2 [Pull.item 0 "a"] = [] ∧
    collectInstr 5 0 (List.replicate 2 (0, "x")) = List.replicate 2 "x" ∧
    collectChat 2 0 (List.replicate 2 (Pull.item 0 "x")) = List.replicate 2 "x" :=
  ⟨c3_time_window_only.1 3 5 [(0, "a")] (by omega),
   c3_time_window_only.2.1 2 2 [Pull.item 0 "a"] (by omega),
   c3_time_window_only.2.2.1 2,
   c3_time_window_only.2.2.2 2⟩

/-- C4 (amended): in the instruction variant, a gate wait that times out
(the 60-second `event.wait(timeout=60)` returning `False`) yields HTTP 408
with body `\x7b"error": "Inference timeout"\x7d`. In the chat variant the
gate wait has no timeout, so a handler whose gate is never signaled never
produces any response at all — it blocks indefinitely rather than returning
408. -/
theorem c4_gate_timeout_behavior :
    (∀ s : String, ¬ s = "" →
        instrInference (some s) none = (⟨408, RespBody.error "Inference timeout"⟩, [s])) ∧
    (∀ s : String, ¬ s = "" → (chatInference (some s) none).1 = none) := by
  constructor
  · intro s h
    simp [instrInference, h]
  · intro s h
    simp [chatInference, h]

/-- C4 witness: concrete valid input with an unsignaled gate — 408 from the
instruction handler, no response ever from the chat handler. -/
theorem c4_witness :
    instrInference (some "Hello") none
      = (⟨408, RespBody.error "Inference timeout"⟩, ["Hello"]) ∧
    (chatInference (some "Hello") none).1 = none :=
  ⟨c4_gate_timeout_behavior.1 "Hello" (by decide),
   c4_gate_timeout_behavior.2 "Hello" (by decide)⟩

/-- C4 counterexample: the chat handler whose gate is never signaled does
not return the 408 response the claim requires (it never returns at all). -/
theorem c4_chat_counterexample :
    (chatInference (some "Hello") none).1
      ≠ some ⟨408, RespBody.error "Inference timeout"⟩ := by decide

/-- C5: in both variants, a missing or empty `input_text` is answered with
HTTP 400 and body `\x7b"error": "Please provide input_text"\x7d`, and nothing is
enqueued on the intake queue — regardless of any gate state. -/
theorem c5_empty_input_rejected (w g : Option InferenceEvent) :
    instrInference none w = (⟨400, RespBody.error "Please provide input_text"⟩, []) ∧
    instrInference (some "") w = (⟨400, RespBody.error "Please provide input_text"⟩, []) ∧
    chatInference none g = (some ⟨400, RespBody.error "Please provide input_text"⟩, []) ∧
    chatInference (some "") g = (some ⟨400, RespBody.error "Please provide input_text"⟩, []) :=
  ⟨rfl, rfl, rfl, rfl⟩

/-- C6: on a successful batch, the `i`-th member's outcome carries the token
length of its own input and of its own decoded output (`tok` ranges over all
possible tokenizers, so the counts cannot be another member's or an
aggregate), its own decoded response, and exactly one signal — in both
variants, with members kept in submission order (`i`-th outcome for the
`i`-th submitted member). -/
theorem c6_per_member_token_counts (tok : String → Nat) (batch outs : List String)
    (hlen : outs.length = batch.length) (i : Nat) (hi : i < batch.length) :
    (((runCycleInstr tok (batch.map initEvent) (GenResult.ok outs)).getD i
          defaultEvent).num_input_tokens = tok (batch.getD i "") ∧
      ((runCycleInstr tok (batch.map initEvent) (GenResult.ok outs)).getD i
          defaultEvent).num_output_tokens = tok (outs.getD i "") ∧
      ((runCycleInstr tok (batch.map initEvent) (GenResult.ok outs)).getD i
          defaultEvent).response = some (outs.getD i "") ∧
      ((runCycleInstr tok (batch.map initEvent) (GenResult.ok outs)).getD i
          defaultEvent).signalCount = 1) ∧
    (((runCycleChat tok batch (batch.map initEvent) (GenResult.ok outs)).getD i
          defaultEvent).num_input_tokens = tok (batch.getD i "") ∧
      ((runCycleChat tok batch (batch.map initEvent) (GenResult.ok outs)).getD i
          defaultEvent).num_output_tokens = tok (outs.getD i "") ∧
      ((runCycleChat tok batch (batch.map initEvent) (GenResult.ok outs)).getD i
          defaultEvent).response = some (outs.getD i "") ∧
      ((runCycleChat tok batch (batch.map initEvent) (GenResult.ok outs)).getD i
          defaultEvent).signalCount = 1) := by
  have hmap := map_initEvent_getD batch i hi
  have hI : (runCycleInstr tok (batch.map initEvent) (GenResult.ok outs)).getD i defaultEvent
      = updSuccessInstr tok (outs.getD i "") (initEvent (batch.getD i "")) := by
    rw [show runCycleInstr tok (batch.map initEvent) (GenResult.ok outs)
          = zipUpd tok outs (batch.map initEvent) from rfl,
        zipUpd_getD tok outs (batch.map initEvent) i (by omega) (by simpa using hi), hmap]
  have hC : (runCycleChat tok batch (batch.map initEvent) (GenResult.ok outs)).getD i defaultEvent
      = updSuccessChat tok (outs.getD i "") (batch.getD i "") (initEvent (batch.getD i "")) := by
    rw [show runCycleChat tok batch (batch.map initEvent) (GenResult.ok outs)
          = zipUpdChat tok outs (batch.map initEvent) batch from rfl,
        zipUpdChat_getD tok outs (batch.map initEvent) batch i (by omega)
          (by simpa using hi) hi, hmap]
  rw [hI, hC]
  exact ⟨⟨rfl, rfl, rfl, rfl⟩, ⟨rfl, rfl, rfl, rfl⟩⟩

/-- C6 witness: a two-member batch with distinct-length inputs and outputs;
member 1's counts come from its own texts. -/
theorem c6_witness :
    (((runCycleInstr String.length (["ab", "c"].map initEvent)
          (GenResult.ok ["wxyz", "u"])).getD 1
          defaultEvent).num_input_tokens = String.length (["ab", "c"].getD 1 "") ∧
      ((runCycleInstr String.length (["ab", "c"].map initEvent)
          (GenResult.ok ["wxyz", "u"])).getD 1
          defaultEvent).num_output_tokens = String.length (["wxyz", "u"].getD 1 "") ∧
      ((runCycleInstr String.length (["ab", "c"].map initEvent)
          (GenResult.ok ["wxyz", "u"])).getD 1
          defaultEvent).response = some (["wxyz", "u"].getD 1 "") ∧
      ((runCycleInstr String.length (["ab", "c"].map initEvent)
          (GenResult.ok ["wxyz", "u"])).getD 1
          defaultEvent).signalCount = 1) ∧
    (((runCycleChat String.length ["ab", "c"] (["ab", "c"].map initEvent)
          (GenResult.ok ["wxyz", "u"])).getD 1
          defaultEvent).num_input_tokens = String.length (["ab", "c"].getD 1 "") ∧
      ((runCycleChat String.length ["ab", "c"] (["ab", "c"].map initEvent)
          (GenResult.ok ["wxyz", "u"])).getD 1
          defaultEvent).num_output_tokens = String.length (["wxyz", "u"].getD 1 "") ∧
      ((runCycleChat String.length ["ab", "c"] (["ab", "c"].map initEvent)
          (GenResult.ok ["wxyz", "u"])).getD 1
          defaultEvent).response = some (["wxyz", "u"].getD 1 "") ∧
      ((runCycleChat String.length ["ab", "c"] (["ab", "c"].map initEvent)
          (GenResult.ok ["wxyz", "u"])).getD 1
          defaultEvent).signalCount = 1) :=
  c6_per_member_token_counts String.length ["ab", "c"] ["wxyz", "u"] rfl 1 (by decide)

/-- C7: end-to-end scenario — a single request `input_text = "Hello"` whose
executor decodes to `"### Response:\nHi there"` is answered, in both
variants, with HTTP 200, `generated_text = "Hi there"` (the part after the
response marker, stripped), `num_input_tokens = tok "Hello"` and
`num_output_tokens` the token length of the full decoded string, for any
tokenizer `tok`. -/
theorem c7_end_to_end (tok : String → Nat) :
    instrInference (some "Hello")
        (some ((runCycleInstr tok (["Hello"].map initEvent)
            (GenResult.ok ["### Response:\nHi there"])).getD 0 defaultEvent))
      = (⟨200, RespBody.result "Hi there" (tok "### Response:\nHi there") (tok "Hello")⟩,
          ["Hello"]) ∧
    chatInference (some "Hello")
        (some ((runCycleChat tok ["Hello"] (["Hello"].map initEvent)
            (GenResult.ok ["### Response:\nHi there"])).getD 0 defaultEvent))
      = (some ⟨200, RespBody.result "Hi there" (tok "### Response:\nHi there") (tok "Hello")⟩,
          ["Hello"]) := by
  have hx : extractResponse "### Response:\nHi there" = "Hi there" := by decide
  constructor
  · simp [instrInference, runCycleInstr, zipUpd, updSuccessInstr, setEvent, initEvent,
      defaultEvent, hx]
  · simp [chatInference, runCycleChat, zipUpdChat, updSuccessChat, setEvent, initEvent,
      defaultEvent, hx]

/-- Prepending one instruction-variant cycle's effects preserves the
serialization scan (a cycle's `generate` invocation is begun and ended
within the cycle). -/
theorem genSerialized_instr_cycle (b : List String) (r : GenResult) (rest : List Effect) :
    genSerialized false (cycleEffectsInstr b r ++ rest) = genSerialized false rest := by
  cases b with
  | nil => rfl
  | cons x xs => rfl

/-- Prepending one chat-variant cycle's effects preserves the serialization
scan. -/
theorem genSerialized_chat_cycle (b : List String) (r : GenResult) (rest : List Effect) :
    genSerialized false (cycleEffectsChat b r ++ rest) = genSerialized false rest := by
  cases b with
  | nil => rfl
  | cons x xs => rfl

/-- C8 (amended): the instruction variant releases the accelerator cache
(`finally: torch.cuda.empty_cache()`) in every cycle that dispatched a
non-empty batch, on the success and the failure path alike; the chat variant
never releases it in any cycle, on either path. The original claim asserted
the unconditional release for both variants. -/
theorem c8_cache_release (batch : List String) (res : GenResult) (h : batch ≠ []) :
    Effect.emptyCache ∈ cycleEffectsInstr batch res ∧
    Effect.emptyCache ∉ cycleEffectsChat batch res := by
  cases batch with
  | nil => exact absurd rfl h
  | cons b bs => simp [cycleEffectsInstr, cycleEffectsChat]

/-- C8 witness: a concrete dispatching cycle on the failure path — the
instruction variant releases the cache, the chat variant does not. -/
theorem c8_witness :
    Effect.emptyCache ∈ cycleEffectsInstr ["a"] GenResult.err ∧
    Effect.emptyCache ∉ cycleEffectsChat ["a"] GenResult.err :=
  c8_cache_release ["a"] GenResult.err (by decide)

/-- C8 counterexample: a completed chat-variant cycle that dispatched a
batch — on the failure path and on the success path — performs no cache
release at all, contradicting "there is never a completed cycle after which
the release step was skipped". -/
theorem c8_chat_counterexample :
    Effect.emptyCache ∉ cycleEffectsChat ["a"] GenResult.err ∧
    Effect.emptyCache ∉ cycleEffectsChat ["a"] (GenResult.ok ["x"]) := by decide

/-- C9: across any sequence of scheduler cycles — hence for any number of
concurrently submitted requests, since only the single `batch_inference`
daemon thread ever calls the executor — the `generate` invocations in the
effect trace are serialized: none begins while a previous one is still
pending, in either variant. -/
theorem c9_serialized_generate (cycles : List (List String × GenResult)) :
    genSerialized false (schedTraceInstr cycles) = true ∧
    genSerialized false (schedTraceChat cycles) = true := by
  induction cycles with
  | nil => exact ⟨rfl, rfl⟩
  | cons c cs ih =>
    obtain ⟨b, r⟩ := c
    constructor
    · rw [show schedTraceInstr ((b, r) :: cs)
            = cycleEffectsInstr b r ++ schedTraceInstr cs by
          simp [schedTraceInstr]]
      rw [genSerialized_instr_cycle]
      exact ih.1
    · rw [show schedTraceChat ((b, r) :: cs)
            = cycleEffectsChat b r ++ schedTraceChat cs by
          simp [schedTraceChat]]
      rw [genSerialized_chat_cycle]
      exact ih.2

/-- C10: in the instruction variant, a batch member hit by an executor
failure or timeout is nevertheless answered with HTTP 200 (not an error
status), `generated_text = "Error occurred during processing"` (the split
on the response marker finds no marker and returns the whole stripped
string), and both token counts `0` — the `InferenceEvent` initial values,
which the failure path never overwrites. -/
theorem c10_instr_error_response (tok : String → Nat) (batch : List String) (i : Nat)
    (hi : i < batch.length) (h : ¬ batch.getD i "" = "") :
    instrInference (some (batch.getD i ""))
        (some ((runCycleInstr tok (batch.map initEvent) GenResult.err).getD i defaultEvent))
      = (⟨200, RespBody.result "Error occurred during processing" 0 0⟩,
          [batch.getD i ""]) := by
  rw [runCycleInstr_err_getD tok batch i hi]
  have hx : extractResponse "Error occurred during processing"
      = "Error occurred during processing" := by decide
  generalize batch.getD i "" = s at h ⊢
  simp [instrInference, h, updErrorInstr, setEvent, initEvent, hx]

/-- C10 witness: a concrete failed single-member batch answered with 200,
the error text, and zero token counts. -/
theorem c10_witness :
    instrInference (some (["Hello"].getD 0 ""))
        (some ((runCycleInstr String.length (["Hello"].map initEvent)
            GenResult.err).getD 0 defaultEvent))
      = (⟨200, RespBody.result "Error occurred during processing" 0 0⟩,
          [(["Hello"] : List String).getD 0 ""]) :=
  c10_instr_error_response String.length ["Hello"] 0 (by decide) (by decide)

end HyperAGI

